import Mathlib

/-!
Verification of the deployment-orchestration core of the `neptune-cli`
command-line client, as a shallow embedding in Lean 4.

Each definition below translates one Python function (or the relevant
fragment of one) from the repository sources:

* `assess_lint_gate`            from `neptune_cli/ui.py`
* `ai_spec_to_platform_request` from `neptune_cli/utils.py`
* `create_project_archive`      from `neptune_cli/utils.py`
* the post-push polling phase   from `neptune_cli/commands/deploy.py`
* `provision_resources`         from `neptune_cli/mcp.py`
* `wait_for_deployment`         from `neptune_cli/services/project.py`
* the `Client` error mapping    from `neptune_cli/client.py`
* `CLISettings` resolution      from `neptune_cli/config.py`

Network calls are modelled by passing the observed HTTP statuses /
response payloads in as explicit arguments (for polling loops, as a
stream `Nat → ·` of successive observations).  `time.sleep(n)` is
modelled by an accumulator counting slept seconds.  Unbounded `while`
loops are modelled with an explicit fuel parameter; exhausting the fuel
returns a distinguished "still waiting" value that the real code can
never produce (it would keep polling instead).
-/

namespace NeptuneCLI

/-! ## Data model (`neptune_cli/types.py` and `neptune_api.models`) -/

/-- One AI lint finding (`AiLintFinding` in `neptune_cli/types.py`). -/
structure AiLintFinding where
  category : String
  code : String
  message : String
  path : Option String
  suggestion : Option String
deriving Repr, DecidableEq

/-- Lint policy carried inside a report (`report.config`). -/
structure AiLintConfig where
  block_on_warnings : Bool
  suppressed_codes : List String
deriving Repr, DecidableEq

/-- Summary block of a lint report (`report.summary`). -/
structure AiLintSummary where
  blocking : Bool
deriving Repr, DecidableEq

/-- An AI lint report (`AiLintReport` in `neptune_cli/types.py`). -/
structure AiLintReport where
  errors : List AiLintFinding
  warnings : List AiLintFinding
  suppressed : List AiLintFinding
  summary : AiLintSummary
  config : AiLintConfig
deriving Repr, DecidableEq

/-- Result of the lint gate (`LintGateAssessment`). -/
structure LintGateAssessment where
  blocking : Bool
  reasons : List String
deriving Repr, DecidableEq

/-! ## Lint gate (`assess_lint_gate`, `neptune_cli/ui.py` lines 226-250) -/

/-- Pluralisation helper: Python writes `s = "" if count == 1 else "s"`. -/
def pluralS (count : Nat) : String :=
  if count = 1 then "" else "s"

/-- Shallow embedding of `assess_lint_gate(report, allow_errors, allow_warnings)`
from `neptune_cli/ui.py`.  The Python builds a list of reason strings and
returns `LintGateAssessment(blocking=len(reasons) > 0, reasons=reasons)`. -/
def assess_lint_gate (report : AiLintReport) (allow_errors : Bool)
    (allow_warnings : Bool) : LintGateAssessment :=
  let reasons0 : List String := []
  let error_count := report.errors.length
  let reasons1 :=
    if error_count > 0 ∧ allow_errors = false then
      reasons0 ++ [toString error_count ++ " blocking error" ++ pluralS error_count ++
        " reported by AI lint"]
    else reasons0
  let warning_count := report.warnings.length
  let reasons2 :=
    if report.config.block_on_warnings = true ∧ warning_count > 0 ∧ allow_warnings = false then
      reasons1 ++ [toString warning_count ++ " warning" ++ pluralS warning_count ++
        " with block_on_warnings enabled"]
    else reasons1
  { blocking := reasons2.length > 0, reasons := reasons2 }

/-! ## AI-spec to platform-request mapping
(`ai_spec_to_platform_request`, `neptune_cli/utils.py` lines 136-175) -/

/-- One resource entry of an AI-service spec dictionary; `kind` and `name`
are read with `res.get("kind", "")` / `res.get("name", "")`, so missing keys
are represented by `""` directly. -/
structure AiResource where
  kind : String
  name : String
deriving Repr, DecidableEq

/-- The fragment of the AI-service spec dictionary the mapping reads:
`ai_spec.get("name", "")` and `ai_spec.get("resources", [])`.  A `name`
key that is absent from the dict is `none`. -/
structure AiSpec where
  name : Option String
  resources : List AiResource
deriving Repr, DecidableEq

/-- A platform `PutProjectRequest`-shaped dictionary. -/
structure PlatformRequest where
  kind : String
  name : String
  resources : List AiResource
deriving Repr, DecidableEq

/-- The `resource_kind_map` lookup with fallback:
`resource_kind_map.get(kind, kind)` in the Python. -/
def resource_kind_map (kind : String) : String :=
  if kind = "ObjectStorageBucket" then "StorageBucket"
  else if kind = "Database" then "Database"
  else if kind = "StorageBucket" then "StorageBucket"
  else if kind = "Secret" then "Secret"
  else kind

/-- Python truthiness of `a or b` for an optional string `a`: the empty
string is falsy, so both `None` and `""` fall through to `b`. -/
def pyOrString (a : Option String) (b : String) : String :=
  match a with
  | some s => if s = "" then b else s
  | none => b

/-- Shallow embedding of `ai_spec_to_platform_request(ai_spec, project_name)`
from `neptune_cli/utils.py`: forces `kind="Service"`, uses
`project_name or ai_spec.get("name", "")` for the name, and maps each
resource kind through `resource_kind_map` while keeping its name. -/
def ai_spec_to_platform_request (ai_spec : AiSpec) (project_name : Option String) :
    PlatformRequest :=
  { kind := "Service"
    name := pyOrString project_name (ai_spec.name.getD "")
    resources := ai_spec.resources.map fun res =>
      { kind := resource_kind_map res.kind, name := res.name } }

/-! ## Archive builder (`create_project_archive`, `neptune_cli/utils.py` lines 22-76) -/

/-- Maximum archive size, 200 MiB (`MAX_ARCHIVE_SIZE = 200 * 1024 * 1024`). -/
def MAX_ARCHIVE_SIZE : Nat := 200 * 1024 * 1024

/-- One filesystem entry the archive walk selected: its project-relative
path, whether `file_path.is_file()` holds, and `file_path.stat().st_size`. -/
structure FsEntry where
  path : String
  is_file : Bool
  size : Nat
deriving Repr, DecidableEq

/-- The file-selection loop of `create_project_archive`: skip non-files,
accumulate `total_size`, raise (here: `Except.error`) as soon as the running
total exceeds `max_size`, otherwise write the entry into the archive.
The accumulator `acc` collects written `(rel_path, size)` entries in reverse. -/
def archiveLoop (max_size : Nat) : List FsEntry → Nat → List (String × Nat) →
    Except String (List (String × Nat))
  | [], _, acc => .ok acc.reverse
  | file :: rest, total_size, acc =>
    if file.is_file = false then archiveLoop max_size rest total_size acc
    else
      let total' := total_size + file.size
      if max_size < total' then
        .error ("Archive size would exceed " ++ toString (max_size / (1024 * 1024)) ++
          "MB limit. Current size: " ++ toString total' ++ " bytes")
      else archiveLoop max_size rest total' ((file.path, file.size) :: acc)

/-- Shallow embedding of `create_project_archive(root, ..., max_size)` from
`neptune_cli/utils.py`.  `files` is the selected file list (git-tracked files
or the manual walk), `lint_files` the force-included lint-config files found
at the project root (`.neptune-lint.toml`, `neptune-lint.toml`); the latter
are appended after the main loop, without size accounting, when not already
included.  On success the archive is the list of written entries. -/
def create_project_archive (files : List FsEntry) (lint_files : List (String × Nat))
    (max_size : Nat) : Except String (List (String × Nat)) :=
  match archiveLoop max_size files 0 [] with
  | .error e => .error e
  | .ok written =>
    .ok (written ++ lint_files.filter fun lf => (written.map Prod.fst).contains lf.1 = false)

/-- Total size of the regular files in a selection, the value the loop's
running total reaches after the last file. -/
def totalFileSize (files : List FsEntry) : Nat :=
  (files.filter fun f => f.is_file).foldr (fun f n => f.size + n) 0

/-! ## Config resolution (`CLISettings`, `neptune_cli/config.py` lines 73-108) -/

/-- Compiled-in default API URL (`DEFAULT_API_BASE_URL` in `config.py`). -/
def DEFAULT_API_BASE_URL : String := "https://neptune.shuttle.dev/v1"

/-- One pydantic-settings source, viewed as a partial assignment of the two
`CLISettings` fields: `none` means the source does not provide the field.
(The `access_token` field itself is nullable, hence the nested option.) -/
structure ConfigSource where
  access_token : Option (Option String)
  api_base_url : Option String
deriving Repr, DecidableEq

/-- The resolved settings object. -/
structure CLISettingsValue where
  access_token : Option String
  api_base_url : String
deriving Repr, DecidableEq

/-- Per-field merge rule of pydantic-settings: the sources returned by
`settings_customise_sources` are combined with
`deep_update(*reversed([source() for source in sources]))`, so for each field
the FIRST source in the tuple that provides it wins. -/
def firstProvided {α : Type} (sources : List (Option α)) : Option α :=
  sources.findSome? id

/-- Shallow embedding of `CLISettings` resolution with the source tuple
returned by `CLISettings.settings_customise_sources`:
`(init_settings, env_settings, dotenv_settings, file_secret_settings,
NeptuneJsonConfigSource(settings_cls))` — the persisted JSON config file is
appended LAST, i.e. with the lowest priority; a field no source provides
falls back to the compiled-in field default. -/
def resolveCLISettings (init env dotenv file_secret json_file : ConfigSource) :
    CLISettingsValue :=
  let sources := [init, env, dotenv, file_secret, json_file]
  { access_token := (firstProvided (sources.map ConfigSource.access_token)).getD none
    api_base_url := (firstProvided (sources.map ConfigSource.api_base_url)).getD
      DEFAULT_API_BASE_URL }

/-- State of the persisted config file at `NEPTUNE_CFG_FILE_PATH`:
absent, present but not valid JSON, or present and parsed. -/
inductive ConfigFileState where
  | absent
  | malformed
  | parsed (data : ConfigSource)
deriving Repr, DecidableEq

/-- Shallow embedding of `NeptuneJsonConfigSource._json_data` from
`neptune_cli/config.py` lines 38-43: it runs
`json.loads(NEPTUNE_CFG_FILE_PATH.read_bytes())` with no exception handling,
so a missing file raises `FileNotFoundError` and bad JSON raises
`json.JSONDecodeError`; both propagate out of settings construction. -/
def neptuneJsonConfigSource : ConfigFileState → Except String ConfigSource
  | .absent => .error "FileNotFoundError: NEPTUNE_CFG_FILE_PATH.read_bytes()"
  | .malformed => .error "json.JSONDecodeError"
  | .parsed data => .ok data

/-- Shallow embedding of constructing `CLISettings()` (config resolution):
the JSON-file source is evaluated as part of the source tuple, so its
exceptions abort the whole resolution; otherwise the five sources are merged
by priority.  No network access is involved anywhere. -/
def loadCLISettings (init env dotenv file_secret : ConfigSource)
    (file : ConfigFileState) : Except String CLISettingsValue :=
  match neptuneJsonConfigSource file with
  | .error e => .error e
  | .ok json_file => .ok (resolveCLISettings init env dotenv file_secret json_file)

/-! ## Platform API client error mapping (`neptune_cli/client.py`) -/

/-- Behaviour of `requests.Response.raise_for_status()`: raises
`requests.HTTPError` exactly for 4xx and 5xx status codes. -/
def raiseForStatus (status : Nat) : Except String Unit :=
  if 400 ≤ status ∧ status < 600 then
    .error ("API call failed with status " ++ toString status)
  else .ok ()

/-- A project as returned by the platform API (the fields the orchestration
core reads; `GetProjectResponse` from `neptune_api.models`). -/
structure ResourceStatus where
  kind : String
  name : String
  status : String
  aws_id : Option String
deriving Repr, DecidableEq

/-- Running-status block of a project (`running_status`). -/
structure RunningStatus where
  current : Option String
  public_ip : Option String
deriving Repr, DecidableEq

/-- Server-side project snapshot (`GetProjectResponse`). -/
structure GetProjectResponse where
  name : String
  kind : String
  provisioning_state : String
  running_status : Option RunningStatus
  resources : List ResourceStatus
deriving Repr, DecidableEq

/-- Shallow embedding of `Client.get_project` (`client.py` lines 97-107):
a 404 maps to `None`, any other 4xx/5xx raises, a success status returns the
validated payload. -/
def Client.get_project (status : Nat) (payload : GetProjectResponse) :
    Except String (Option GetProjectResponse) :=
  if status = 404 then .ok none
  else
    match raiseForStatus status with
    | .error e => .error e
    | .ok _ => .ok (some payload)

/-- Shallow embedding of `Client.get_projects` (`client.py` lines 72-95):
the entire request body is inside `try: ... except Exception: return []`,
with an inner `if response.status_code == 404: return []` before
`raise_for_status`.  Consequently no status can make it raise. -/
def Client.get_projects (status : Nat) (payload : List GetProjectResponse) :
    Except String (List GetProjectResponse) :=
  let attempt : Except String (List GetProjectResponse) :=
    if status = 404 then .ok []
    else
      match raiseForStatus status with
      | .error e => .error e
      | .ok _ => .ok payload
  match attempt with
  | .error _ => .ok []
  | .ok projects => .ok projects

/-- Shallow embedding of `Client.set_secret_value` (`client.py` lines
176-183): it performs `requests.put(...)` and never inspects
`response.status_code` — there is no `raise_for_status` call, so no HTTP
status makes it raise. -/
def Client.set_secret_value (status : Nat) : Except String Unit :=
  let _ := status
  .ok ()

/-- Shallow embedding of the response handling shared by every other client
method (`create_project`, `update_project`, `delete_project`,
`create_deployment`, `get_deployment`, `get_logs`, `list_bucket_keys`,
`get_bucket_object`, `get_database_connection_info`, `get_project_schema`,
`get_current_user`, `get_registry_auth`): `raise_for_status()` then return
the validated payload. -/
def Client.standardCall {α : Type} (status : Nat) (payload : α) : Except String α :=
  match raiseForStatus status with
  | .error e => .error e
  | .ok _ => .ok payload

/-! ## Deploy command post-push polling
(`neptune_cli/commands/deploy.py` lines 355-368) -/

/-- Outcome of the deploy command's post-push polling phase:
how many times `client.get_deployment` was called, how many seconds were
spent in `time.sleep(5)`, the last fetched deployment status, and the `ok`
flag the command reports afterwards. -/
structure DeployPollResult where
  fetches : Nat
  sleepSeconds : Nat
  finalStatus : String
  ok : Bool
deriving Repr, DecidableEq

/-- The loop body of `for _ in range(max_attempts)`: at attempt index `i`,
fetch the deployment status (`fetch i`); `break` if it equals `"Deployed"`,
else `time.sleep(5)` and continue with the remaining budget. -/
def deployPollAux (fetch : Nat → String) :
    Nat → Nat → Nat → String → Nat × Nat × String
  | 0, i, slept, last => (i, slept, last)
  | budget + 1, i, slept, _ =>
    let s := fetch i
    if s = "Deployed" then (i + 1, slept, s)
    else deployPollAux fetch budget (i + 1) (slept + 5) s

/-- Shallow embedding of the post-push phase of `deploy_command`
(`commands/deploy.py` lines 355-368): `max_attempts = 60`; the loop starts
from the status of the create-deployment response and always fetches at
least once; afterwards the command unconditionally sets `json_out.ok = True`
(line 368) — budget exhaustion is not an error. -/
def deployCommandPostPush (fetch : Nat → String) (createStatus : String) :
    DeployPollResult :=
  let r := deployPollAux fetch 60 0 0 createStatus
  { fetches := r.1, sleepSeconds := r.2.1, finalStatus := r.2.2, ok := true }

/-! ## Resource provisioner (`provision_resources`, `neptune_cli/mcp.py`
lines 255-329) -/

/-- The declared project spec read from `neptune.json`
(`PutProjectRequest`). -/
structure PutProjectRequest where
  kind : String
  name : String
  resources : List AiResource
deriving Repr, DecidableEq

/-- Which API write `provision_resources` performed after the initial
`get_project` lookup (each carries the full declared request). -/
inductive ProvisionAction where
  | createProject (request : PutProjectRequest)
  | updateProject (request : PutProjectRequest)
deriving Repr, DecidableEq

/-- Python check `resource.status == "Pending"` over `project.resources`:
true when the loop-B scan finds at least one pending resource. -/
def hasPendingResource (project : GetProjectResponse) : Bool :=
  project.resources.any fun resource => resource.status = "Pending"

/-- Poll loop A of `provision_resources`: starting from observation index
`i`, refetch (2-second sleep before each refetch) until
`provisioning_state == "Ready"`.  Returns the index of the Ready
observation, the seconds slept, and the observation itself; `none` models
"still polling after `fuel` fetches" (the Python loop has no exit of its
own). -/
def provisionLoopA (stream : Nat → GetProjectResponse) :
    Nat → Nat → Nat → Option (Nat × Nat × GetProjectResponse)
  | 0, _, _ => none
  | fuel + 1, i, slept =>
    let project := stream i
    if project.provisioning_state = "Ready" then some (i, slept, project)
    else provisionLoopA stream fuel (i + 1) (slept + 2)

/-- Poll loop B of `provision_resources`: while the current observation has
a resource with status `"Pending"`, sleep 2 seconds and refetch (note the
Python rechecks only resource statuses here, not `provisioning_state`).
Returns the next unused observation index, seconds slept, and the final
observation. -/
def provisionLoopB (stream : Nat → GetProjectResponse) :
    Nat → GetProjectResponse → Nat → Nat → Option (Nat × Nat × GetProjectResponse)
  | 0, project, i, slept =>
    if hasPendingResource project then none else some (i, slept, project)
  | fuel + 1, project, i, slept =>
    if hasPendingResource project then
      provisionLoopB stream fuel (stream i) (i + 1) (slept + 2)
    else some (i, slept, project)

/-- Result of a completed `provision_resources` run. -/
structure ProvisionResult where
  action : ProvisionAction
  finalProject : GetProjectResponse
  infrastructure_resources : List ResourceStatus
  sleepSeconds : Nat
deriving Repr, DecidableEq

/-- Shallow embedding of the `provision_resources` MCP tool
(`neptune_cli/mcp.py` lines 255-329) after the spec file was read and
validated: `existing` is the initial `client.get_project` result (`none`
when the lookup returned 404); the project is created when absent and
updated with the full declared request otherwise; then poll loop A runs on
the stream of subsequent `get_project` observations, followed by poll
loop B; the returned `infrastructure_resources` are the final observation's
resources (each `ResourceStatus` carries its `aws_id`). -/
def provision_resources (request : PutProjectRequest)
    (existing : Option GetProjectResponse) (stream : Nat → GetProjectResponse)
    (fuelA fuelB : Nat) : Option ProvisionResult :=
  let action :=
    match existing with
    | none => ProvisionAction.createProject request
    | some _ => ProvisionAction.updateProject request
  match provisionLoopA stream fuelA 0 0 with
  | none => none
  | some (i, sleptA, _) =>
    match provisionLoopB stream fuelB (stream i) (i + 1) sleptA with
    | none => none
    | some (_, slept, finalProject) =>
      some { action := action
             finalProject := finalProject
             infrastructure_resources := finalProject.resources
             sleepSeconds := slept }

/-! ## Waiting for a deployment
(`wait_for_deployment`, `neptune_cli/services/project.py` lines 180-227) -/

/-- Observable outcome of `wait_for_deployment`: the Python either returns a
`ProjectStatus`, raises `ProjectNotFoundError`, raises `DeploymentError`
carrying the offending state, or raises `TimeoutError`.  `stillWaiting`
models fuel exhaustion of the embedding only. -/
inductive WaitOutcome where
  | success (project : GetProjectResponse)
  | projectNotFound
  | deploymentError (state : String)
  | timeoutExceeded
  | stillWaiting
deriving Repr, DecidableEq

/-- Python expression `project.running_status.current if project.running_status
else None`. -/
def observedRunningStatus (project : GetProjectResponse) : Option String :=
  match project.running_status with
  | some rs => rs.current
  | none => none

/-- Python condition `timeout is not None and (time.time() - start_time) >
timeout`, evaluated with the elapsed seconds at the current check. -/
def timeoutExceededCheck (timeout : Option Nat) (elapsedNow : Nat) : Bool :=
  match timeout with
  | some t => decide (t < elapsedNow)
  | none => false

/-- Shallow embedding of the `while True` loop of `wait_for_deployment`
(`services/project.py` lines 205-227).  `obs k` is the k-th `get_project`
result (`none` for a 404), `elapsed k` the value of
`time.time() - start_time` at the k-th timeout check, and `timeout` the
optional timeout argument (default `None`).  Checks happen in source order:
not-found, `"Running"`, `["Stopped", "Error"]`, timeout, then sleep and
refetch. -/
def wait_for_deployment (obs : Nat → Option GetProjectResponse)
    (elapsed : Nat → Nat) (timeout : Option Nat) : Nat → Nat → WaitOutcome
  | 0, _ => .stillWaiting
  | fuel + 1, i =>
    match obs i with
    | none => .projectNotFound
    | some project =>
      let running_status := observedRunningStatus project
      if running_status = some "Running" then .success project
      else if running_status = some "Stopped" ∨ running_status = some "Error" then
        .deploymentError (running_status.getD "")
      else if timeoutExceededCheck timeout (elapsed i) then .timeoutExceeded
      else wait_for_deployment obs elapsed timeout fuel (i + 1)

/-! ## Spec resolver (`generate_or_load_spec`, `neptune_cli/services/deploy.py`)

Modelled from the spec: the function `generate_or_load_spec` and its
exception `NeptuneJsonNotFoundError` live in `neptune_cli/services/deploy.py`,
which is not among the sources here — only its caller
(`commands/deploy.py` lines 187-205, which maps `NeptuneJsonNotFoundError`
to the message "Cannot skip spec generation because neptune.json does not
exist") is.  Spec section 4.4: with `skip_generation` true the on-disk spec
must exist or resolution fails with a "spec not found" condition, and an
existing file is returned unchanged without contacting the AI service. -/

/-- Failure conditions of the spec resolver. -/
inductive SpecResolveError where
  | neptuneJsonNotFound
  | generationFailed (message : String)
deriving Repr, DecidableEq

/-- Successful spec resolution: the resolved spec contents and the number of
calls made to the AI generation endpoint while resolving. -/
structure SpecResolveResult where
  spec : String
  aiCalls : Nat
  generated : Bool
deriving Repr, DecidableEq

/-- Modelled from the spec: `generate_or_load_spec` from
`neptune_cli/services/deploy.py` (absent from the sources), restricted to
the on-disk/`skip_generation` behaviour the claim is about.  `onDisk` is the
current `neptune.json` contents if the file exists; `generate` is the AI
generation endpoint, modelled as the spec it would produce. -/
def generate_or_load_spec (onDisk : Option String) (skip_generation : Bool)
    (generate : String) : Except SpecResolveError SpecResolveResult :=
  if skip_generation then
    match onDisk with
    | none => .error .neptuneJsonNotFound
    | some contents => .ok { spec := contents, aiCalls := 0, generated := false }
  else
    .ok { spec := generate, aiCalls := 1, generated := true }

/-! ## Theorems -/

/-- C1: for every `AiLintReport` and override flags, the lint gate blocks iff
(errors non-empty and `allow_errors` unset) or (`config.block_on_warnings`
set, warnings non-empty and `allow_warnings` unset); suppressed findings
never influence the assessment; both overrides set always yield
`blocking = false`; and a report with zero errors and warnings never
blocks. -/
theorem assess_lint_gate_blocking_iff (report : AiLintReport)
    (allow_errors allow_warnings : Bool) :
    ((assess_lint_gate report allow_errors allow_warnings).blocking = true ↔
      (report.errors ≠ [] ∧ allow_errors = false) ∨
        (report.config.block_on_warnings = true ∧ report.warnings ≠ [] ∧
          allow_warnings = false))
    ∧ (∀ findings, assess_lint_gate { report with suppressed := findings }
        allow_errors allow_warnings = assess_lint_gate report allow_errors allow_warnings)
    ∧ (assess_lint_gate report true true).blocking = false
    ∧ (report.errors = [] → report.warnings = [] →
        (assess_lint_gate report allow_errors allow_warnings).blocking = false) := by
  refine ⟨?_, fun findings => rfl, ?_, ?_⟩
  · rcases eq_or_ne report.errors [] with he | he <;>
      rcases eq_or_ne report.warnings [] with hw | hw <;>
      cases allow_errors <;> cases allow_warnings <;>
      cases hbw : report.config.block_on_warnings <;>
      simp [assess_lint_gate, hbw, he, hw, List.length_pos]
  · cases hbw : report.config.block_on_warnings <;> simp [assess_lint_gate, hbw]
  · intro he hw
    cases allow_errors <;> cases allow_warnings <;>
      cases hbw : report.config.block_on_warnings <;>
      simp [assess_lint_gate, hbw, he, hw]

/-- Witness for C1: a report with one error and no overrides blocks. -/
theorem assess_lint_gate_blocking_iff_witness :
    (assess_lint_gate
      { errors := [{ category := "Architecture", code := "E1", message := "boom",
                     path := none, suggestion := none }]
        warnings := [], suppressed := [], summary := { blocking := true }
        config := { block_on_warnings := false, suppressed_codes := [] } }
      false false).blocking = true :=
  (assess_lint_gate_blocking_iff
    { errors := [{ category := "Architecture", code := "E1", message := "boom",
                   path := none, suggestion := none }]
      warnings := [], suppressed := [], summary := { blocking := true }
      config := { block_on_warnings := false, suppressed_codes := [] } }
    false false).1.mpr (Or.inl ⟨by decide, rfl⟩)

/-- Helper for C2: the attempt counter of the post-push poll loop moves
forward and spends at most `budget` further fetches. -/
theorem deployPollAux_fetch_bounds (fetch : Nat → String) (budget i slept : Nat)
    (last : String) :
    i ≤ (deployPollAux fetch budget i slept last).1 ∧
      (deployPollAux fetch budget i slept last).1 ≤ i + budget := by
  induction budget generalizing i slept last with
  | zero => simp [deployPollAux]
  | succ b ih =>
    rw [deployPollAux]
    by_cases h : fetch i = "Deployed"
    · simp [h]
    · simp only [h, if_false]
      have := ih (i + 1) (slept + 5) (fetch i)
      omega

/-- Helper for C2: every attempt strictly before the last one observed a
status other than `"Deployed"` (the loop stops as soon as it sees it). -/
theorem deployPollAux_early_stop (fetch : Nat → String) (budget i slept : Nat)
    (last : String) (k : Nat) (hik : i ≤ k)
    (hk : k + 1 < (deployPollAux fetch budget i slept last).1) :
    fetch k ≠ "Deployed" := by
  induction budget generalizing i slept last with
  | zero =>
    simp [deployPollAux] at hk
    omega
  | succ b ih =>
    rw [deployPollAux] at hk
    by_cases h : fetch i = "Deployed"
    · simp [h] at hk
      omega
    · simp only [h, if_false] at hk
      rcases Nat.lt_or_ge i k with hlt | hge
      · exact ih (i + 1) (slept + 5) (fetch i) hlt hk
      · have : k = i := Nat.le_antisymm hge hik
        rw [this]
        exact h

/-- Helper for C2: provided the incoming status is not already
`"Deployed"`, the loop ends on `"Deployed"` exactly when one of the fetches
within its budget returns it. -/
theorem deployPollAux_final_iff (fetch : Nat → String) (budget i slept : Nat)
    (last : String) (hlast : last ≠ "Deployed") :
    (deployPollAux fetch budget i slept last).2.2 = "Deployed" ↔
      ∃ k, i ≤ k ∧ k < i + budget ∧ fetch k = "Deployed" := by
  induction budget generalizing i slept last with
  | zero =>
    simp [deployPollAux, hlast]
    omega
  | succ b ih =>
    rw [deployPollAux]
    by_cases h : fetch i = "Deployed"
    · simp only [h, if_pos rfl]
      constructor
      · intro _
        exact ⟨i, Nat.le_refl i, by omega, h⟩
      · intro _
        rfl
    · simp only [h, if_false]
      rw [ih (i + 1) (slept + 5) (fetch i) h]
      constructor
      · rintro ⟨k, hk1, hk2, hk3⟩
        exact ⟨k, by omega, by omega, hk3⟩
      · rintro ⟨k, hk1, hk2, hk3⟩
        refine ⟨k, ?_, by omega, hk3⟩
        rcases Nat.eq_or_lt_of_le hk1 with rfl | hlt
        · exact absurd hk3 h
        · omega

/-- Helper for C2: if no fetch in the budget returns `"Deployed"` the loop
runs its full budget, sleeping 5 seconds after every attempt. -/
theorem deployPollAux_exhausted (fetch : Nat → String) (budget i slept : Nat)
    (last : String) (h : ∀ k, i ≤ k → k < i + budget → fetch k ≠ "Deployed") :
    (deployPollAux fetch budget i slept last).1 = i + budget ∧
      (deployPollAux fetch budget i slept last).2.1 = slept + 5 * budget := by
  induction budget generalizing i slept last with
  | zero => simp [deployPollAux]
  | succ b ih =>
    rw [deployPollAux]
    have hi : fetch i ≠ "Deployed" := h i (Nat.le_refl i) (by omega)
    simp only [hi, if_false]
    have := ih (i + 1) (slept + 5) (fetch i) (fun k hk1 hk2 => h k (by omega) (by omega))
    omega

/-- Helper for C2: total slept seconds track the attempt count — one
5-second sleep between consecutive fetches (and at most one trailing
sleep). -/
theorem deployPollAux_sleep_bounds (fetch : Nat → String) (budget i slept : Nat)
    (last : String) :
    (deployPollAux fetch budget i slept last).2.1 + 5 * i ≤
        slept + 5 * (deployPollAux fetch budget i slept last).1 ∧
      slept + 5 * (deployPollAux fetch budget i slept last).1 ≤
        (deployPollAux fetch budget i slept last).2.1 + 5 * i + 5 := by
  induction budget generalizing i slept last with
  | zero => simp [deployPollAux]
  | succ b ih =>
    rw [deployPollAux]
    by_cases h : fetch i = "Deployed"
    · simp [h]
      omega
    · simp only [h, if_false]
      have := ih (i + 1) (slept + 5) (fetch i)
      omega

/-- Helper for C2: with a non-zero budget the loop performs at least one
fetch before stopping. -/
theorem deployPollAux_fetch_pos (fetch : Nat → String) (budget i slept : Nat)
    (last : String) (hb : budget ≠ 0) :
    i + 1 ≤ (deployPollAux fetch budget i slept last).1 := by
  cases budget with
  | zero => exact absurd rfl hb
  | succ b =>
    rw [deployPollAux]
    by_cases h : fetch i = "Deployed"
    · simp [h]
    · simp only [h, if_false]
      have := deployPollAux_fetch_bounds fetch b (i + 1) (slept + 5) (fetch i)
      omega

/-- C2: in the deploy command's post-push polling phase the deployment
status is fetched at most 60 times (and at least once), with a 5-second
sleep between consecutive fetches; the loop stops early as soon as a fetch
returns `"Deployed"`; and when the budget is exhausted without the status
ever becoming `"Deployed"`, all 60 fetches happened and the command still
reports `ok = true` — indeed `ok = true` unconditionally. -/
theorem deploy_post_push_polling (fetch : Nat → String) (createStatus : String) :
    (deployCommandPostPush fetch createStatus).fetches ≤ 60
    ∧ 1 ≤ (deployCommandPostPush fetch createStatus).fetches
    ∧ (∀ k, k + 1 < (deployCommandPostPush fetch createStatus).fetches →
        fetch k ≠ "Deployed")
    ∧ ((deployCommandPostPush fetch createStatus).finalStatus = "Deployed" ↔
        ∃ k, k < 60 ∧ fetch k = "Deployed")
    ∧ 5 * ((deployCommandPostPush fetch createStatus).fetches - 1) ≤
        (deployCommandPostPush fetch createStatus).sleepSeconds
    ∧ (deployCommandPostPush fetch createStatus).sleepSeconds ≤
        5 * (deployCommandPostPush fetch createStatus).fetches
    ∧ ((∀ k, k < 60 → fetch k ≠ "Deployed") →
        (deployCommandPostPush fetch createStatus).fetches = 60)
    ∧ (deployCommandPostPush fetch createStatus).ok = true := by
  have hb := deployPollAux_fetch_bounds fetch 60 0 0 createStatus
  have hs := deployPollAux_sleep_bounds fetch 60 0 0 createStatus
  have h1 : 1 ≤ (deployPollAux fetch 60 0 0 createStatus).1 := by
    have := deployPollAux_fetch_pos fetch 60 0 0 createStatus (by omega)
    omega
  refine ⟨by simpa [deployCommandPostPush] using hb.2, h1,
    ?_, ?_, ?_, ?_, ?_, rfl⟩
  · intro k hk
    exact deployPollAux_early_stop fetch 60 0 0 createStatus k (Nat.zero_le k)
      (by simpa [deployCommandPostPush] using hk)
  · show (deployPollAux fetch 60 0 0 createStatus).2.2 = "Deployed" ↔ _
    rw [show (60 : Nat) = 59 + 1 from rfl, deployPollAux]
    by_cases h : fetch 0 = "Deployed"
    · simp only [h, if_pos rfl]
      exact ⟨fun _ => ⟨0, by omega, h⟩, fun _ => rfl⟩
    · simp only [h, if_false]
      rw [deployPollAux_final_iff fetch 59 1 5 (fetch 0) h]
      constructor
      · rintro ⟨k, hk1, hk2, hk3⟩
        exact ⟨k, by omega, hk3⟩
      · rintro ⟨k, hk1, hk2⟩
        refine ⟨k, ?_, by omega, hk2⟩
        rcases Nat.eq_zero_or_pos k with rfl | hpos
        · exact absurd hk2 h
        · omega
  · show 5 * ((deployPollAux fetch 60 0 0 createStatus).1 - 1) ≤
      (deployPollAux fetch 60 0 0 createStatus).2.1
    omega
  · show (deployPollAux fetch 60 0 0 createStatus).2.1 ≤
      5 * (deployPollAux fetch 60 0 0 createStatus).1
    omega
  · intro h
    have := deployPollAux_exhausted fetch 60 0 0 createStatus
      (fun k _ hk2 => h k (by omega))
    simpa [deployCommandPostPush] using this.1

/-- Witness for C2 at a concrete fetch schedule: the status becomes
`"Deployed"` at the third fetch, so exactly 3 of the 60 attempts run. -/
theorem deploy_post_push_polling_witness :
    (deployCommandPostPush (fun n => if n = 2 then "Deployed" else "Building")
      "Created").finalStatus = "Deployed" :=
  (deploy_post_push_polling (fun n => if n = 2 then "Deployed" else "Building")
    "Created").2.2.2.1.mpr ⟨2, by decide, by decide⟩

/-- Helper for C3: a successful poll loop A run stopped at the first
observation with `provisioning_state = "Ready"`, sleeping 2 seconds before
each refetch. -/
theorem provisionLoopA_some (stream : Nat → GetProjectResponse) (fuel i slept k s : Nat)
    (project : GetProjectResponse)
    (h : provisionLoopA stream fuel i slept = some (k, s, project)) :
    i ≤ k ∧ k < i + fuel ∧ project = stream k ∧
      (stream k).provisioning_state = "Ready" ∧
      (∀ m, i ≤ m → m < k → (stream m).provisioning_state ≠ "Ready") ∧
      s = slept + 2 * (k - i) := by
  induction fuel generalizing i slept with
  | zero => simp [provisionLoopA] at h
  | succ fuel ih =>
    rw [provisionLoopA] at h
    by_cases hr : (stream i).provisioning_state = "Ready"
    · simp only [hr, if_pos rfl, Option.some.injEq, Prod.mk.injEq] at h
      obtain ⟨rfl, rfl, rfl⟩ := h
      refine ⟨?_, ?_, ?_, ?_, ?_, ?_⟩
      · omega
      · omega
      · rfl
      · exact hr
      · intro m h1 h2
        omega
      · omega
    · simp only [hr, if_false] at h
      obtain ⟨h1, h2, h3, h4, h5, h6⟩ := ih (i + 1) (slept + 2) h
      refine ⟨by omega, by omega, h3, h4, ?_, by omega⟩
      intro m hm1 hm2
      rcases Nat.eq_or_lt_of_le hm1 with rfl | hlt
      · exact hr
      · exact h5 m hlt hm2

/-- Helper for C3: a successful poll loop B run ends on an observation with
no `"Pending"` resource, sleeping 2 seconds before each refetch; the final
observation is the incoming one when no refetch happened and the last
fetched one otherwise. -/
theorem provisionLoopB_some (stream : Nat → GetProjectResponse) (fuel : Nat)
    (project : GetProjectResponse) (i slept j s : Nat) (final : GetProjectResponse)
    (h : provisionLoopB stream fuel project i slept = some (j, s, final)) :
    i ≤ j ∧ hasPendingResource final = false ∧ s = slept + 2 * (j - i) ∧
      (j = i → final = project) ∧ (i < j → final = stream (j - 1)) := by
  induction fuel generalizing project i slept with
  | zero =>
    rw [provisionLoopB] at h
    by_cases hp : hasPendingResource project
    · simp [hp] at h
    · simp only [hp] at h
      simp only [Bool.false_eq_true, if_false, Option.some.injEq, Prod.mk.injEq] at h
      obtain ⟨rfl, rfl, rfl⟩ := h
      refine ⟨?_, ?_, ?_, ?_, ?_⟩
      · omega
      · simpa using hp
      · omega
      · intro _
        rfl
      · intro hc
        exact absurd hc (Nat.lt_irrefl _)
  | succ fuel ih =>
    rw [provisionLoopB] at h
    by_cases hp : hasPendingResource project
    · simp only [hp, if_pos rfl] at h
      obtain ⟨h1, h2, h3, h4, h5⟩ := ih (stream i) (i + 1) (slept + 2) h
      refine ⟨by omega, h2, by omega, fun hji => by omega, fun hij => ?_⟩
      rcases Nat.eq_or_lt_of_le h1 with h1e | hlt
      · rw [← h1e] at h4 ⊢
        simpa using h4 rfl
      · simpa using h5 hlt
    · simp only [hp] at h
      simp only [Bool.false_eq_true, if_false, Option.some.injEq, Prod.mk.injEq] at h
      obtain ⟨rfl, rfl, rfl⟩ := h
      refine ⟨?_, ?_, ?_, ?_, ?_⟩
      · omega
      · simpa using hp
      · omega
      · intro _
        rfl
      · intro hc
        exact absurd hc (Nat.lt_irrefl _)

/-- C3 (amended): whenever `provision_resources` returns, it created the
project exactly when the initial lookup returned absent (else it updated it
with the full declared request); some polled observation had
`provisioning_state = "Ready"` (the first such one, reached with a 2-second
sleep before every refetch and no timeout of the provisioner's own); the
final observation has no resource with status `"Pending"`; and the returned
resource list is exactly the final observation's resources, carrying the
provider-assigned `aws_id` values.  The final observation itself need not
still satisfy `provisioning_state = "Ready"`: poll loop B rechecks only
resource statuses. -/
theorem provision_resources_spec (request : PutProjectRequest)
    (existing : Option GetProjectResponse) (stream : Nat → GetProjectResponse)
    (fuelA fuelB : Nat) (result : ProvisionResult)
    (h : provision_resources request existing stream fuelA fuelB = some result) :
    (result.action = if existing.isNone then ProvisionAction.createProject request
      else ProvisionAction.updateProject request)
    ∧ (∃ i, i < fuelA ∧ (stream i).provisioning_state = "Ready" ∧
        ∀ m, m < i → (stream m).provisioning_state ≠ "Ready")
    ∧ hasPendingResource result.finalProject = false
    ∧ result.infrastructure_resources = result.finalProject.resources
    ∧ (∃ j, 1 ≤ j ∧ result.finalProject = stream (j - 1) ∧
        result.sleepSeconds = 2 * (j - 1)) := by
  rcases hA : provisionLoopA stream fuelA 0 0 with _ | ⟨i, sA, pA⟩
  · simp [provision_resources, hA] at h
  · rcases hB : provisionLoopB stream fuelB (stream i) (i + 1) sA with _ | ⟨j, s, q⟩
    · simp [provision_resources, hA, hB] at h
    · simp only [provision_resources, hA, hB, Option.some.injEq] at h
      obtain ⟨hA1, hA2, hA3, hA4, hA5, hA6⟩ :=
        provisionLoopA_some stream fuelA 0 0 i sA pA hA
      obtain ⟨hB1, hB2, hB3, hB4, hB5⟩ :=
        provisionLoopB_some stream fuelB (stream i) (i + 1) sA j s q hB
      subst h
      refine ⟨?_, ⟨i, by omega, hA4, fun m hm => hA5 m (by omega) hm⟩, hB2, rfl, ?_⟩
      · cases existing <;> rfl
      · refine ⟨j, by omega, ?_, ?_⟩
        · show q = stream (j - 1)
          rcases Nat.eq_or_lt_of_le hB1 with hje | hlt
          · rw [← hje]
            simpa using hB4 hje.symm
          · simpa using hB5 hlt
        · show s = 2 * (j - 1)
          omega

/-- Concrete declared request used in the C3 counterexample. -/
def cexRequest : PutProjectRequest :=
  { kind := "Service", name := "demo", resources := [{ kind := "StorageBucket", name := "uploads" }] }

/-- First polled observation in the C3 counterexample: the project reports
`provisioning_state = "Ready"` while its bucket is still `"Pending"`. -/
def cexProjectReady : GetProjectResponse :=
  { name := "demo", kind := "Service", provisioning_state := "Ready"
    running_status := none
    resources := [{ kind := "StorageBucket", name := "uploads", status := "Pending",
                    aws_id := none }] }

/-- Second polled observation in the C3 counterexample: the bucket became
`"Available"` but the project regressed to
`provisioning_state = "Provisioning"`. -/
def cexProjectRegressed : GetProjectResponse :=
  { name := "demo", kind := "Service", provisioning_state := "Provisioning"
    running_status := none
    resources := [{ kind := "StorageBucket", name := "uploads", status := "Available",
                    aws_id := some "neptune-abc123-uploads" }] }

/-- Stream of `get_project` observations for the C3 counterexample. -/
def cexStream : Nat → GetProjectResponse :=
  fun n => if n = 0 then cexProjectReady else cexProjectRegressed

/-- C3 counterexample: `provision_resources` CAN return while the last
observed `provisioning_state` is not `"Ready"` — after poll loop A exits on
a `"Ready"` observation whose bucket is still pending, poll loop B refetches
and returns an observation with no pending resource but
`provisioning_state = "Provisioning"`, without rechecking readiness.  This
refutes the claim that the provisioner never returns while
`provisioning_state != "Ready"`. -/
theorem provision_resources_counterexample :
    (provision_resources cexRequest none cexStream 1 1).map
        (fun result => result.finalProject.provisioning_state) = some "Provisioning"
      ∧ "Provisioning" ≠ "Ready" := by
  constructor
  · rfl
  · decide

/-- Witness for C3 (amended) at the counterexample inputs: the final
observation returned by the provisioner has no pending resource. -/
theorem provision_resources_spec_witness :
    hasPendingResource
      { action := ProvisionAction.createProject cexRequest
        finalProject := cexProjectRegressed
        infrastructure_resources := cexProjectRegressed.resources
        sleepSeconds := 2 : ProvisionResult }.finalProject = false :=
  (provision_resources_spec cexRequest none cexStream 1 1
    { action := ProvisionAction.createProject cexRequest
      finalProject := cexProjectRegressed
      infrastructure_resources := cexProjectRegressed.resources
      sleepSeconds := 2 } (by rfl)).2.2.1

/-- C4 counterexample: with no explicit override, a field set both in the
environment and in the persisted config file resolves to the ENVIRONMENT
value — `settings_customise_sources` appends `NeptuneJsonConfigSource` after
`env_settings`, and earlier sources win in pydantic-settings.  This refutes
the claimed precedence in which the persisted file beats environment
variables. -/
theorem config_precedence_counterexample :
    (resolveCLISettings
      { access_token := none, api_base_url := none }
      { access_token := none, api_base_url := some "https://env.example/v1" }
      { access_token := none, api_base_url := none }
      { access_token := none, api_base_url := none }
      { access_token := none, api_base_url := some "https://file.example/v1" }).api_base_url =
        "https://env.example/v1"
    ∧ "https://env.example/v1" ≠ "https://file.example/v1" := by
  exact ⟨rfl, by decide⟩

/-- C4 (amended): the actual precedence, lowest to highest, is persisted
config file → file-secrets source → dotenv → environment variables →
explicit init override, with the compiled-in default API URL used only when
no source provides the field: an explicit override wins over everything, an
environment value wins over the persisted file regardless of the file's
contents, the persisted file is consulted only when no other source
provides the field, and with no source at all the compiled-in default
applies. -/
theorem config_precedence_spec (init env dotenv file_secret json_file : ConfigSource) :
    (∀ v, init.api_base_url = some v →
      (resolveCLISettings init env dotenv file_secret json_file).api_base_url = v)
    ∧ (∀ v, init.api_base_url = none → env.api_base_url = some v →
      (resolveCLISettings init env dotenv file_secret json_file).api_base_url = v)
    ∧ (∀ v, init.api_base_url = none → env.api_base_url = none →
        dotenv.api_base_url = none → file_secret.api_base_url = none →
        json_file.api_base_url = some v →
      (resolveCLISettings init env dotenv file_secret json_file).api_base_url = v)
    ∧ (init.api_base_url = none → env.api_base_url = none →
        dotenv.api_base_url = none → file_secret.api_base_url = none →
        json_file.api_base_url = none →
      (resolveCLISettings init env dotenv file_secret json_file).api_base_url =
        DEFAULT_API_BASE_URL)
    ∧ (∀ t, init.access_token = none → env.access_token = some t →
      (resolveCLISettings init env dotenv file_secret json_file).access_token = t) := by
  refine ⟨?_, ?_, ?_, ?_, ?_⟩
  · intro v hv
    simp [resolveCLISettings, firstProvided, hv]
  · intro v h1 h2
    simp [resolveCLISettings, firstProvided, h1, h2]
  · intro v h1 h2 h3 h4 h5
    simp [resolveCLISettings, firstProvided, h1, h2, h3, h4, h5]
  · intro h1 h2 h3 h4 h5
    simp [resolveCLISettings, firstProvided, h1, h2, h3, h4, h5]
  · intro t h1 h2
    simp [resolveCLISettings, firstProvided, h1, h2]

/-- Witness for C4 (amended) at the counterexample sources: the environment
value is the resolved one. -/
theorem config_precedence_spec_witness :
    (resolveCLISettings
      { access_token := none, api_base_url := none }
      { access_token := none, api_base_url := some "https://env.example/v1" }
      { access_token := none, api_base_url := none }
      { access_token := none, api_base_url := none }
      { access_token := none, api_base_url := some "https://file.example/v1" }).api_base_url =
        "https://env.example/v1" :=
  (config_precedence_spec
    { access_token := none, api_base_url := none }
    { access_token := none, api_base_url := some "https://env.example/v1" }
    { access_token := none, api_base_url := none }
    { access_token := none, api_base_url := none }
    { access_token := none, api_base_url := some "https://file.example/v1" }).2.1
    "https://env.example/v1" rfl rfl

/-- C5 counterexample: `set_secret_value` does not raise on a 500 response
(there is no `raise_for_status` call in it), and `get_projects` on a 500
returns the empty list instead of raising (its `except Exception` swallows
the error).  This refutes the claim that `set_secret_value` raises on
non-2xx and that `get_projects` raises on non-2xx, non-404 responses. -/
theorem client_nonraising_counterexample :
    Client.set_secret_value 500 = Except.ok ()
    ∧ Client.get_projects 500 [] = Except.ok [] := by
  exact ⟨rfl, rfl⟩

/-- C5 (amended): `get_project` maps 404 to `None`, raises on any other
4xx/5xx, and returns the payload otherwise; `get_projects` NEVER raises —
it maps 404 and every error status alike to the empty list;
`set_secret_value` performs no status check at all and never raises; and
every other client method raises exactly on 4xx/5xx and returns its payload
otherwise. -/
theorem client_error_mapping_spec (status : Nat) (project : GetProjectResponse)
    (projects : List GetProjectResponse) :
    (Client.get_project status project = Except.ok none ↔ status = 404)
    ∧ (status ≠ 404 → 400 ≤ status → status < 600 →
        (Client.get_project status project).isOk = false)
    ∧ (status < 400 ∨ 600 ≤ status →
        Client.get_project status project = Except.ok (some project))
    ∧ (Client.get_projects status projects).isOk = true
    ∧ (status = 404 → Client.get_projects status projects = Except.ok [])
    ∧ (400 ≤ status → status < 600 → Client.get_projects status projects = Except.ok [])
    ∧ Client.set_secret_value status = Except.ok ()
    ∧ (∀ payload : Nat, 400 ≤ status → status < 600 →
        (Client.standardCall status payload).isOk = false)
    ∧ (∀ payload : Nat, status < 400 ∨ 600 ≤ status →
        Client.standardCall status payload = Except.ok payload) := by
  have h404 : ¬(400 ≤ 404 ∧ 404 < 600) → False := by omega
  refine ⟨?_, ?_, ?_, ?_, ?_, ?_, rfl, ?_, ?_⟩
  · by_cases h : status = 404
    · simp [Client.get_project, h]
    · simp only [Client.get_project, h, if_false]
      by_cases hr : 400 ≤ status ∧ status < 600
      · simp [raiseForStatus, hr]
      · simp [raiseForStatus, hr, h]
  · intro h hl hu
    simp [Client.get_project, h, raiseForStatus, hl, hu, Except.isOk, Except.toBool]
  · intro h
    have hne : status ≠ 404 := by omega
    have hr : ¬(400 ≤ status ∧ status < 600) := by omega
    simp [Client.get_project, hne, raiseForStatus, hr]
  · by_cases h : status = 404
    · simp [Client.get_projects, h, Except.isOk, Except.toBool]
    · by_cases hr : 400 ≤ status ∧ status < 600
      · simp [Client.get_projects, h, raiseForStatus, hr, Except.isOk, Except.toBool]
      · simp [Client.get_projects, h, raiseForStatus, hr, Except.isOk, Except.toBool]
  · intro h
    simp [Client.get_projects, h]
  · intro hl hu
    have hne : status ≠ 404 ∨ status = 404 := by omega
    by_cases h : status = 404
    · simp [Client.get_projects, h]
    · simp [Client.get_projects, h, raiseForStatus, hl, hu]
  · intro payload hl hu
    simp [Client.standardCall, raiseForStatus, hl, hu, Except.isOk, Except.toBool]
  · intro payload h
    have hr : ¬(400 ≤ status ∧ status < 600) := by omega
    simp [Client.standardCall, raiseForStatus, hr]

/-- Sample project payload used in the C5 witness. -/
def sampleProject : GetProjectResponse :=
  { name := "demo", kind := "Service", provisioning_state := "Ready"
    running_status := none, resources := [] }

/-- Witness for C5 (amended) at status 500: `get_project` raises. -/
theorem client_error_mapping_spec_witness :
    (Client.get_project 500 sampleProject).isOk = false :=
  (client_error_mapping_spec 500 sampleProject []).2.1 (by decide) (by decide) (by decide)

/-- C6: with `skip_generation = true` the spec resolver fails with the
"spec not found" condition when no `neptune.json` exists, and otherwise
returns the on-disk contents unchanged with zero calls to the AI service. -/
theorem generate_or_load_spec_skip (generated : String) :
    generate_or_load_spec none true generated =
        Except.error SpecResolveError.neptuneJsonNotFound
    ∧ (∀ contents, generate_or_load_spec (some contents) true generated =
        Except.ok { spec := contents, aiCalls := 0, generated := false }) := by
  exact ⟨rfl, fun contents => rfl⟩

/-- Helper for C7: once the declared sizes of the remaining regular files
would push the running total past the cap, the archive loop errors. -/
theorem archiveLoop_oversize (max_size : Nat) :
    ∀ (files : List FsEntry) (total : Nat) (acc : List (String × Nat)),
      total ≤ max_size → max_size < total + totalFileSize files →
      ∃ e, archiveLoop max_size files total acc = Except.error e := by
  intro files
  induction files with
  | nil =>
    intro total acc h1 h2
    simp [totalFileSize] at h2
    omega
  | cons f rest ih =>
    intro total acc h1 h2
    rw [archiveLoop]
    by_cases hf : f.is_file
    · simp only [hf, Bool.true_eq_false, if_false]
      by_cases hover : max_size < total + f.size
      · simp [hover]
      · simp only [hover, if_false]
        refine ih (total + f.size) ((f.path, f.size) :: acc) (by omega) ?_
        have : totalFileSize (f :: rest) = f.size + totalFileSize rest := by
          simp [totalFileSize, hf]
        omega
    · have hf' : f.is_file = false := by
        simpa using hf
      simp only [hf', if_pos rfl]
      refine ih total acc h1 ?_
      have : totalFileSize (f :: rest) = totalFileSize rest := by
        simp [totalFileSize, hf']
      omega

/-- C7: whenever the total size of the selected regular files exceeds the
cap, `create_project_archive` errors out and returns no archive at all —
in particular no truncated or partial archive. -/
theorem create_project_archive_size_cap (files : List FsEntry)
    (lint_files : List (String × Nat)) (max_size : Nat)
    (h : max_size < totalFileSize files) :
    (create_project_archive files lint_files max_size).isOk = false := by
  obtain ⟨e, he⟩ := archiveLoop_oversize max_size files 0 [] (Nat.zero_le _) (by omega)
  simp [create_project_archive, he, Except.isOk, Except.toBool]

/-- Witness for C7: a directory whose single file alone exceeds the 200 MiB
cap yields no archive. -/
theorem create_project_archive_size_cap_witness :
    (create_project_archive
      [{ path := "huge.bin", is_file := true, size := MAX_ARCHIVE_SIZE + 1 }]
      [] MAX_ARCHIVE_SIZE).isOk = false :=
  create_project_archive_size_cap
    [{ path := "huge.bin", is_file := true, size := MAX_ARCHIVE_SIZE + 1 }]
    [] MAX_ARCHIVE_SIZE (by norm_num [totalFileSize, MAX_ARCHIVE_SIZE])

/-- C8 counterexample: an explicitly supplied EMPTY project-name override is
not used — Python's `project_name or ai_spec.get("name", "")` treats `""`
as falsy and falls back to the AI spec's name.  This refutes the claim that
the name is the supplied project name whenever one is given. -/
theorem ai_spec_name_override_counterexample :
    (ai_spec_to_platform_request { name := some "ai-name", resources := [] }
      (some "")).name = "ai-name"
    ∧ "ai-name" ≠ "" := by
  exact ⟨rfl, by decide⟩

/-- C8 (amended): the mapped request's kind is always `"Service"`; its name
is the supplied project name when one is given and non-empty, and the AI
spec's name (or `""`) when the override is absent or empty; resources
preserve order and names while kinds go through the lookup table, which
sends `"ObjectStorageBucket"` to `"StorageBucket"`, keeps `"Database"`,
`"StorageBucket"` and `"Secret"`, and passes any other kind through
unchanged. -/
theorem ai_spec_to_platform_request_spec (ai_spec : AiSpec)
    (project_name : Option String) :
    (ai_spec_to_platform_request ai_spec project_name).kind = "Service"
    ∧ (∀ pn, pn ≠ "" → (ai_spec_to_platform_request ai_spec (some pn)).name = pn)
    ∧ (ai_spec_to_platform_request ai_spec none).name = ai_spec.name.getD ""
    ∧ (ai_spec_to_platform_request ai_spec (some "")).name = ai_spec.name.getD ""
    ∧ ((ai_spec_to_platform_request ai_spec project_name).resources.map AiResource.name =
        ai_spec.resources.map AiResource.name)
    ∧ ((ai_spec_to_platform_request ai_spec project_name).resources.map AiResource.kind =
        ai_spec.resources.map fun res => resource_kind_map res.kind)
    ∧ resource_kind_map "ObjectStorageBucket" = "StorageBucket"
    ∧ resource_kind_map "Database" = "Database"
    ∧ resource_kind_map "StorageBucket" = "StorageBucket"
    ∧ resource_kind_map "Secret" = "Secret"
    ∧ (∀ k, k ≠ "ObjectStorageBucket" → k ≠ "Database" → k ≠ "StorageBucket" →
        k ≠ "Secret" → resource_kind_map k = k) := by
  refine ⟨rfl, ?_, rfl, ?_, ?_, ?_, rfl, rfl, rfl, rfl, ?_⟩
  · intro pn hpn
    simp [ai_spec_to_platform_request, pyOrString, hpn]
  · simp [ai_spec_to_platform_request, pyOrString]
  · simp [ai_spec_to_platform_request, List.map_map, Function.comp]
  · simp [ai_spec_to_platform_request, List.map_map, Function.comp]
  · intro k h1 h2 h3 h4
    simp [resource_kind_map, h1, h2, h3, h4]

/-- Witness for C8 (amended): a non-empty override names the request. -/
theorem ai_spec_to_platform_request_spec_witness :
    (ai_spec_to_platform_request
      { name := some "ai-name", resources := [{ kind := "ObjectStorageBucket", name := "b" }] }
      (some "proj")).name = "proj" :=
  (ai_spec_to_platform_request_spec
    { name := some "ai-name", resources := [{ kind := "ObjectStorageBucket", name := "b" }] }
    (some "proj")).2.1 "proj" (by decide)

/-- C9: config resolution as written CANNOT survive a missing persisted
config file — `NeptuneJsonConfigSource._json_data` calls
`NEPTUNE_CFG_FILE_PATH.read_bytes()` with no exception handling, so an
absent file raises `FileNotFoundError` out of `CLISettings()`; malformed
JSON likewise raises instead of being treated as an absent file.  Only a
present, well-formed file resolves. -/
theorem config_missing_file_fails (init env dotenv file_secret : ConfigSource) :
    (loadCLISettings init env dotenv file_secret ConfigFileState.absent).isOk = false
    ∧ (loadCLISettings init env dotenv file_secret ConfigFileState.malformed).isOk = false
    ∧ (∀ data, (loadCLISettings init env dotenv file_secret
        (ConfigFileState.parsed data)).isOk = true) := by
  exact ⟨rfl, rfl, fun data => rfl⟩

/-- Helper for C10: `wait_for_deployment` returns a project only when that
project's observed running status is `"Running"`. -/
theorem wait_for_deployment_success_running (obs : Nat → Option GetProjectResponse)
    (elapsed : Nat → Nat) (timeout : Option Nat) :
    ∀ fuel i project, wait_for_deployment obs elapsed timeout fuel i =
        WaitOutcome.success project →
      observedRunningStatus project = some "Running" := by
  intro fuel
  induction fuel with
  | zero =>
    intro i project h
    simp [wait_for_deployment] at h
  | succ f ih =>
    intro i project h
    rw [wait_for_deployment.eq_def] at h
    simp only at h
    rcases ho : obs i with _ | p
    · simp [ho] at h
    · simp only [ho] at h
      by_cases hr : observedRunningStatus p = some "Running"
      · rw [if_pos hr] at h
        cases h
        exact hr
      · rw [if_neg hr] at h
        by_cases hse : observedRunningStatus p = some "Stopped" ∨
            observedRunningStatus p = some "Error"
        · rw [if_pos hse] at h
          cases h
        · rw [if_neg hse] at h
          by_cases ht : timeoutExceededCheck timeout (elapsed i) = true
          · rw [if_pos ht] at h
            cases h
          · rw [if_neg ht] at h
            exact ih (i + 1) project h

/-- Helper for C10: if the polled observations are all present, none of
them reaches a terminal state before index `k`, and the observation at `k`
shows `"Stopped"` or `"Error"`, then the wait (with no timeout set, the
default) raises `DeploymentError` carrying exactly that state. -/
theorem wait_for_deployment_bad_state (obs : Nat → Option GetProjectResponse)
    (elapsed : Nat → Nat) :
    ∀ fuel i k, i ≤ k → k < i + fuel →
      (∀ j, i ≤ j → j ≤ k → (obs j).isSome = true) →
      (∀ j, i ≤ j → j < k →
        (obs j).bind observedRunningStatus ≠ some "Running" ∧
          (obs j).bind observedRunningStatus ≠ some "Stopped" ∧
          (obs j).bind observedRunningStatus ≠ some "Error") →
      ((obs k).bind observedRunningStatus = some "Stopped" ∨
        (obs k).bind observedRunningStatus = some "Error") →
      wait_for_deployment obs elapsed none fuel i =
        WaitOutcome.deploymentError (((obs k).bind observedRunningStatus).getD "") := by
  intro fuel
  induction fuel with
  | zero =>
    intro i k h1 h2
    omega
  | succ f ih =>
    intro i k h1 h2 hobs hmid hk
    rw [wait_for_deployment.eq_def]
    simp only
    rcases ho : obs i with _ | p
    · have hsm := hobs i (Nat.le_refl i) h1
      rw [ho] at hsm
      simp at hsm
    · simp only [ho]
      rcases Nat.eq_or_lt_of_le h1 with h1e | hik
      · subst h1e
        rw [ho] at hk
        simp only [Option.some_bind] at hk
        have hr : observedRunningStatus p ≠ some "Running" := by
          rcases hk with hk | hk <;> rw [hk] <;> simp
        rw [if_neg hr, if_pos hk, ho]
        simp only [Option.some_bind]
      · have hmi := hmid i (Nat.le_refl i) hik
        rw [ho] at hmi
        simp only [Option.some_bind] at hmi
        obtain ⟨hm1, hm2, hm3⟩ := hmi
        have hse : ¬(observedRunningStatus p = some "Stopped" ∨
            observedRunningStatus p = some "Error") := by
          rintro (hc | hc)
          · exact hm2 hc
          · exact hm3 hc
        rw [if_neg hm1, if_neg hse]
        have ht : ¬timeoutExceededCheck none (elapsed i) = true := by
          simp [timeoutExceededCheck]
        rw [if_neg ht]
        exact ih (i + 1) k hik (by omega)
          (fun j hj1 hj2 => hobs j (by omega) hj2)
          (fun j hj1 hj2 => hmid j (by omega) hj2) hk

/-- C10: `wait_for_deployment` returns successfully only when the observed
running status is `"Running"`; and when the polling first meets a
`"Stopped"` or `"Error"` running status (all earlier observations present
and non-terminal, no timeout configured), it raises a `DeploymentError`
identifying exactly that state — it neither keeps polling past it nor
returns success. -/
theorem wait_for_deployment_claim (obs : Nat → Option GetProjectResponse)
    (elapsed : Nat → Nat) (timeout : Option Nat) (fuel : Nat) :
    (∀ project, wait_for_deployment obs elapsed timeout fuel 0 =
        WaitOutcome.success project →
      observedRunningStatus project = some "Running")
    ∧ (∀ k, k < fuel →
        (∀ j, j ≤ k → (obs j).isSome = true) →
        (∀ j, j < k →
          (obs j).bind observedRunningStatus ≠ some "Running" ∧
            (obs j).bind observedRunningStatus ≠ some "Stopped" ∧
            (obs j).bind observedRunningStatus ≠ some "Error") →
        ((obs k).bind observedRunningStatus = some "Stopped" ∨
          (obs k).bind observedRunningStatus = some "Error") →
        wait_for_deployment obs elapsed none fuel 0 =
          WaitOutcome.deploymentError (((obs k).bind observedRunningStatus).getD "")) := by
  constructor
  · intro project h
    exact wait_for_deployment_success_running obs elapsed timeout fuel 0 project h
  · intro k hk hobs hmid hbad
    exact wait_for_deployment_bad_state obs elapsed fuel 0 k (Nat.zero_le k) (by omega)
      (fun j _ hj2 => hobs j hj2) (fun j _ hj2 => hmid j hj2) hbad

/-- Observation stream for the C10 witness: the service is seen pending
once and then `"Stopped"`. -/
def waitWitnessObs : Nat → Option GetProjectResponse :=
  fun n =>
    if n = 0 then
      some { name := "demo", kind := "Service", provisioning_state := "Ready"
             running_status := some { current := some "Pending", public_ip := none }
             resources := [] }
    else
      some { name := "demo", kind := "Service", provisioning_state := "Ready"
             running_status := some { current := some "Stopped", public_ip := none }
             resources := [] }

/-- Witness for C10: with the concrete observation stream the wait raises
`DeploymentError` for the `"Stopped"` state at the second poll. -/
theorem wait_for_deployment_claim_witness :
    wait_for_deployment waitWitnessObs (fun _ => 0) none 3 0 =
      WaitOutcome.deploymentError "Stopped" :=
  (wait_for_deployment_claim waitWitnessObs (fun _ => 0) none 3).2 1
    (by decide) (by decide) (by decide) (by decide)

end NeptuneCLI
